import Mathlib

/-!
Shallow embedding of the chia-monitor collection-and-notification core:
the RPC metric collector (`monitor/collectors/rpc_collector.py`) and the
summary notification rule (`monitor/notifications/summary.py`).

Remote RPC endpoints are modelled as environments of `Except`-valued
responses; Python exceptions are modelled as `Except` errors carrying a
`PyError` classifying the raised exception.  Timestamps (`datetime`) are
modelled as integers, `timedelta(hours=1)` as the integer 3600.
-/

deriving instance DecidableEq for Except

namespace ChiaMonitor

/-!
Event model.  The event module itself lies outside the embedded sources,
so each event's fields are transcribed from the keyword arguments at its
construction sites in `rpc_collector.py` and from the column references in
`summary.py`.  Note `confirmed`, `space` and `peak_height` are built with
`str(...)` at the construction sites, hence `String` fields, and the
`diffculty` field name reproduces the keyword used at the call site.
-/

structure WalletBalanceEvent where
  ts : Int
  confirmed : String
deriving DecidableEq

structure HarvesterPlotsEvent where
  ts : Int
  plot_count : Nat
  plot_size : Nat
deriving DecidableEq

structure BlockchainStateEvent where
  ts : Int
  space : String
  diffculty : Nat
  peak_height : String
  synced : Bool
deriving DecidableEq

structure ConnectionsEvent where
  ts : Int
  full_node_count : Nat
  farmer_count : Nat
  wallet_count : Nat
deriving DecidableEq

structure FarmingInfoEvent where
  ts : Int
  proofs : Nat
deriving DecidableEq

inductive ChiaEvent where
  | walletBalance (e : WalletBalanceEvent)
  | harvesterPlots (e : HarvesterPlotsEvent)
  | blockchainState (e : BlockchainStateEvent)
  | connections (e : ConnectionsEvent)
  | farmingInfo (e : FarmingInfoEvent)
deriving DecidableEq

/-- Classification of the Python exception escaping a metric fetch:
`connectionError s` for the `ConnectionError` raised in the collector's
`except` blocks, `typeError` for the `TypeError` of subscripting `None`,
and `clientError` for a raw client exception escaping an unguarded call. -/
inductive PyError where
  | connectionError (service : String)
  | typeError
  | clientError
deriving DecidableEq

/-- NodeType enum values used by the collector (chia `NodeType`). -/
def NodeType_FULL_NODE : Nat := 1

def NodeType_HARVESTER : Nat := 2

def NodeType_FARMER : Nat := 3

def NodeType_WALLET : Nat := 6

/-!
Collector, from `monitor/collectors/rpc_collector.py`.
-/

/-- Wallet RPC environment: `get_wallets` (its list of wallet ids) and
`get_wallet_balance(id)` (the `confirmed_wallet_balance` entry). -/
structure WalletRpc where
  wallets : Except Unit (List Nat)
  balanceOf : Nat → Except Unit Int

/-- `RpcCollector.get_wallet_balance`: collects each wallet's confirmed
balance; any exception in the loop is converted to a `ConnectionError`;
on success it publishes one `WalletBalanceEvent` whose `confirmed` field
is `str(sum(confirmed_balances))`. -/
def get_wallet_balance (rpc : WalletRpc) (now : Int) : Except PyError (List ChiaEvent) :=
  match rpc.wallets >>= fun ws => ws.mapM rpc.balanceOf with
  | .error _ => .error (.connectionError "wallet")
  | .ok balances => .ok [.walletBalance ⟨now, toString balances.sum⟩]

structure PlotInfo where
  file_size : Nat
deriving DecidableEq

/-- Outcome of `RpcCollector.get_plots` for one harvester host:
`createFail` models `HarvesterRpcClient.create` raising (the body's broad
`except` then leaves `harvester_client` unbound, so the trailing
`harvester_client.close()` raises an `UnboundLocalError` that escapes);
`callFail` models the `get_plots` RPC call raising, which the function
catches, returning `None`; `ok success plots` is a well-formed response
dict with its `success` flag and `plots` list. -/
inductive HostOutcome where
  | createFail
  | callFail
  | ok (success : Bool) (plots : List PlotInfo)

structure FarmerPeer where
  ntype : Nat
  peer_host : String

/-- Farmer RPC environment: whether `FarmerRpcClient.create` succeeds, and
the `get_connections` response. -/
structure FarmerRpc where
  createOk : Bool
  connections : Except Unit (List FarmerPeer)

/-- `RpcCollector.get_harvesters`: on a `create` failure the broad `except`
catches, but `farmer_client.close()` then raises `UnboundLocalError`
(modelled `.error ()`); a failure of `get_connections` is caught and the
hosts collected so far (none) are returned; on success it returns the
`peer_host` of every `HARVESTER`-typed peer. -/
def get_harvesters (farmer : FarmerRpc) : Except Unit (List String) :=
  if farmer.createOk then
    match farmer.connections with
    | .error _ => .ok []
    | .ok conns =>
      .ok ((conns.filter (fun c => c.ntype == NodeType_HARVESTER)).map FarmerPeer.peer_host)
  else .error ()

/-- `RpcCollector.get_plots` for one host, as a function of the host's
outcome (see `HostOutcome`). -/
def get_plots (o : HostOutcome) : Except Unit (Option (Bool × List PlotInfo)) :=
  match o with
  | .createFail => .error ()
  | .callFail => .ok none
  | .ok s ps => .ok (some (s, ps))

/-- `RpcCollector.get_all_plots`: folds over the harvester hosts,
concatenating the `plots` lists of responses that are non-`None` and have
`success` set; `all_plots` stays `None` when no host contributes. -/
def get_all_plots (hw : String → HostOutcome) :
    List String → Option (List PlotInfo) → Except Unit (Option (List PlotInfo))
  | [], acc => .ok acc
  | host :: rest, acc =>
    match get_plots (hw host) with
    | .error e => .error e
    | .ok none => get_all_plots hw rest acc
    | .ok (some (s, ps)) =>
      if s then
        match acc with
        | none => get_all_plots hw rest (some ps)
        | some a => get_all_plots hw rest (some (a ++ ps))
      else get_all_plots hw rest acc

/-- `RpcCollector.get_harvester_plots`: exceptions inside the `try` block
become `ConnectionError("... harvester ...")`; but the event construction
`len(plots["plots"])` sits outside the `try`, so when `get_all_plots`
returned `None` it raises an uncaught `TypeError`. -/
def get_harvester_plots (farmer : FarmerRpc) (hw : String → HostOutcome) (now : Int) :
    Except PyError (List ChiaEvent) :=
  match get_harvesters farmer >>= fun hosts => get_all_plots hw hosts none with
  | .error _ => .error (.connectionError "harvester")
  | .ok none => .error .typeError
  | .ok (some ps) =>
    .ok [.harvesterPlots ⟨now, ps.length, (ps.map PlotInfo.file_size).sum⟩]

/-- Raw `get_blockchain_state` RPC response fields used by the collector. -/
structure BlockchainStateRaw where
  space : Nat
  difficulty : Nat
  peak_height : Nat
  synced : Bool

/-- Full-node RPC environment: `get_blockchain_state` and
`get_connections` (peer type codes). -/
structure FullNodeRpc where
  blockchain_state : Except Unit BlockchainStateRaw
  connections : Except Unit (List Nat)

/-- `RpcCollector.get_blockchain_state`: failure becomes a
`ConnectionError`; success publishes one `BlockchainStateEvent` with
`space` and `peak_height` stringified as at the call site. -/
def get_blockchain_state (fn : FullNodeRpc) (now : Int) : Except PyError (List ChiaEvent) :=
  match fn.blockchain_state with
  | .error _ => .error (.connectionError "full node")
  | .ok st =>
    .ok [.blockchainState
      ⟨now, toString st.space, st.difficulty, toString st.peak_height, st.synced⟩]

/-- `RpcCollector.get_connections`: no `try` guard here, so a failing RPC
call escapes as the raw client exception; on success it publishes one
`ConnectionsEvent` counting peers by `NodeType`. -/
def get_connections (fn : FullNodeRpc) (now : Int) : Except PyError (List ChiaEvent) :=
  match fn.connections with
  | .error _ => .error .clientError
  | .ok peers =>
    .ok [.connections ⟨now,
      (peers.filter (fun p => p == NodeType_FULL_NODE)).length,
      (peers.filter (fun p => p == NodeType_FARMER)).length,
      (peers.filter (fun p => p == NodeType_WALLET)).length⟩]

/-- One poll cycle's remote world: the responses each service would give
this cycle, plus the cycle's clock reading. -/
structure RpcWorld where
  wallet : WalletRpc
  farmer : FarmerRpc
  harvesterHosts : String → HostOutcome
  fullNode : FullNodeRpc
  now : Int

def eventsOf : Except PyError (List ChiaEvent) → List ChiaEvent
  | .ok evs => evs
  | .error _ => []

def errorOf : Except PyError (List ChiaEvent) → Option PyError
  | .ok _ => none
  | .error e => some e

def walletFetch (r : RpcWorld) : Except PyError (List ChiaEvent) :=
  get_wallet_balance r.wallet r.now

def plotsFetch (r : RpcWorld) : Except PyError (List ChiaEvent) :=
  get_harvester_plots r.farmer r.harvesterHosts r.now

def stateFetch (r : RpcWorld) : Except PyError (List ChiaEvent) :=
  get_blockchain_state r.fullNode r.now

def connFetch (r : RpcWorld) : Except PyError (List ChiaEvent) :=
  get_connections r.fullNode r.now

/-- Events published during one cycle of `RpcCollector.task`:
`asyncio.gather` (default `return_exceptions=False`) starts all four
fetches and does not cancel the others when one raises, so every fetch
runs to completion and publishes on its own success, independently. -/
def published (r : RpcWorld) : List ChiaEvent :=
  eventsOf (walletFetch r) ++ eventsOf (plotsFetch r) ++
    eventsOf (stateFetch r) ++ eventsOf (connFetch r)

/-- The exception `await asyncio.gather(...)` re-raises for one cycle of
`RpcCollector.task`, if any fetch raised (the first failing fetch in
argument order stands in for gather's timing-dependent choice). -/
def cycleError (r : RpcWorld) : Option PyError :=
  match errorOf (walletFetch r) with
  | some e => some e
  | none =>
    match errorOf (plotsFetch r) with
    | some e => some e
    | none =>
      match errorOf (stateFetch r) with
      | some e => some e
      | none => errorOf (connFetch r)

/-- `RpcCollector.task`'s `while True` loop, run over a finite script of
cycle worlds: the loop body has no exception handling, so the first cycle
whose gather raises terminates the loop with that exception; otherwise
the loop sleeps and proceeds to the next cycle. -/
def runLoop : List RpcWorld → List ChiaEvent × Option PyError
  | [] => ([], none)
  | r :: rest =>
    match cycleError r with
    | some e => (published r, some e)
    | none =>
      let res := runLoop rest
      (published r ++ res.1, res.2)

/-!
Notification rule, from `monitor/notifications/summary.py`.
-/

/-- `SummaryNotification.summary_interval = timedelta(hours=1)`, in seconds. -/
def summary_interval : Int := 3600

/-- The class attributes of `SummaryNotification` that participate in the
cooldown: the class-level `last_summary_ts` slot. -/
structure SummaryClassAttrs where
  last_summary_ts : Int
deriving DecidableEq

/-- Execution of the class body `last_summary_ts = datetime.now() - summary_interval`
at class-definition time `t0`. -/
def initClass (t0 : Int) : SummaryClassAttrs := ⟨t0 - summary_interval⟩

/-- Python attribute read `self.last_summary_ts`: the instance `__dict__`
entry when present, otherwise the class attribute.  A fresh instance's
slot is `none`. -/
def readLast (cls : SummaryClassAttrs) (inst : Option Int) : Int :=
  inst.getD cls.last_summary_ts

/-- `SummaryNotification.condition`: the two `datetime.now()` readings of
the body are `now1` (the comparison at the `if`) and `now2` (the stamp);
the assignment `self.last_summary_ts = datetime.now()` writes the
instance slot. -/
def condition (cls : SummaryClassAttrs) (inst : Option Int) (now1 now2 : Int) :
    Bool × Option Int :=
  if summary_interval < now1 - readLast cls inst then (true, some now2) else (false, inst)

/-- The five values `SummaryNotification.trigger` reads from the event
store: the four `order_by(ts.desc()).limit(1)` scalars and the
`func.sum(FarmingInfoEvent.proofs)` scalar, each `none` when the query
returned no row (or `NULL`). -/
structure QueryResults where
  last_plots : Option HarvesterPlotsEvent
  last_state : Option BlockchainStateEvent
  last_balance : Option WalletBalanceEvent
  last_connections : Option ConnectionsEvent
  proofs_found : Option Nat
deriving DecidableEq

/-- The data `trigger` hands to `self.apobj.notify` (the summary body is
formatted from exactly these five values; the formatting helpers live
outside the embedded sources and do not affect whether notify is called). -/
structure NotifyCall where
  last_plots : HarvesterPlotsEvent
  last_state : BlockchainStateEvent
  last_balance : WalletBalanceEvent
  last_connections : ConnectionsEvent
  proofs_found : Nat
deriving DecidableEq

/-- `SummaryNotification.trigger`: `db = none` models the store session or
query raising (the exception escapes `trigger`, leaving the instance slot
as it was); with a reachable store, `notify` runs only under the `all(...)`
check on the five lookups, and on that path line 56 re-stamps
`self.last_summary_ts = datetime.now()` (`now`). -/
def trigger (db : Option QueryResults) (inst : Option Int) (now : Int) :
    Except Unit (Option NotifyCall) × Option Int :=
  match db with
  | none => (.error (), inst)
  | some q =>
    match q.last_plots, q.last_balance, q.last_state, q.last_connections, q.proofs_found with
    | some lp, some lb, some ls, some lc, some pf =>
      (.ok (some ⟨lp, ls, lb, lc, pf⟩), some now)
    | _, _, _, _, _ => (.ok none, inst)

/-!
Event-store query semantics for the four latest-row selects and the sum,
over the store contents as an append-only list of events in arrival
order.  The store layer itself is outside the embedded sources; this
models `select(K).order_by(K.ts.desc()).limit(1)` as "a row of kind `K`
of maximal `ts`" and `select(func.sum(...))` as the sum over all rows
(`NULL`, i.e. `none`, on an empty table).
-/

def asWallet : ChiaEvent → Option WalletBalanceEvent
  | .walletBalance e => some e
  | _ => none

def asPlots : ChiaEvent → Option HarvesterPlotsEvent
  | .harvesterPlots e => some e
  | _ => none

def asState : ChiaEvent → Option BlockchainStateEvent
  | .blockchainState e => some e
  | _ => none

def asConnections : ChiaEvent → Option ConnectionsEvent
  | .connections e => some e
  | _ => none

def asFarming : ChiaEvent → Option FarmingInfoEvent
  | .farmingInfo e => some e
  | _ => none

/-- First row of an `order_by(key desc)` over a table in arrival order:
the earliest-arrived row of maximal key. -/
def argmaxTs {β : Type} (key : β → Int) : List β → Option β
  | [] => none
  | e :: rest =>
    match argmaxTs key rest with
    | none => some e
    | some a => if key e < key a then some a else some e

def latestPlots (evs : List ChiaEvent) : Option HarvesterPlotsEvent :=
  argmaxTs HarvesterPlotsEvent.ts (evs.filterMap asPlots)

def latestState (evs : List ChiaEvent) : Option BlockchainStateEvent :=
  argmaxTs BlockchainStateEvent.ts (evs.filterMap asState)

def latestWallet (evs : List ChiaEvent) : Option WalletBalanceEvent :=
  argmaxTs WalletBalanceEvent.ts (evs.filterMap asWallet)

def latestConnections (evs : List ChiaEvent) : Option ConnectionsEvent :=
  argmaxTs ConnectionsEvent.ts (evs.filterMap asConnections)

def sumProofs (evs : List ChiaEvent) : Option Nat :=
  match evs.filterMap asFarming with
  | [] => none
  | l => some ((l.map FarmingInfoEvent.proofs).sum)

/-- The five query results `trigger` obtains when the store holds `evs`. -/
def queryStore (evs : List ChiaEvent) : QueryResults :=
  ⟨latestPlots evs, latestState evs, latestWallet evs, latestConnections evs, sumProofs evs⟩

/-!
Driver tick.  The notification driver and base class are outside the
embedded sources.
-/

/-- Modelled from the spec: the Notification Driver evaluates `condition()`
once per tick and invokes `trigger()` exactly when it returned true
(spec 4.3/4.4).  `inp.c` and `inp.s` are the two clock readings inside
`condition`, `inp.s2` the reading at `trigger`'s re-stamp, `inp.db` the
store's availability and contents for the tick. -/
structure TickInput where
  db : Option QueryResults
  c : Int
  s : Int
  s2 : Int

def tick (cls : SummaryClassAttrs) (inst : Option Int) (inp : TickInput) :
    Except Unit (Option NotifyCall) × Option Int :=
  match condition cls inst inp.c inp.s with
  | (true, i1) => trigger inp.db i1 inp.s2
  | (false, i1) => (.ok none, i1)

/-- Instance slot after `n` driver ticks drawn from the script `inp`. -/
def instAfter (cls : SummaryClassAttrs) (inst0 : Option Int) (inp : Nat → TickInput) :
    Nat → Option Int
  | 0 => inst0
  | n + 1 => (tick cls (instAfter cls inst0 inp n) (inp n)).2

/-- Whether `condition` returns true at tick `n`. -/
def firedAt (cls : SummaryClassAttrs) (inst0 : Option Int) (inp : Nat → TickInput)
    (n : Nat) : Bool :=
  (condition cls (instAfter cls inst0 inp n) (inp n).c (inp n).s).1

/-- Whether `notify` is actually invoked at tick `n`. -/
def notifiedAt (cls : SummaryClassAttrs) (inst0 : Option Int) (inp : Nat → TickInput)
    (n : Nat) : Bool :=
  match (tick cls (instAfter cls inst0 inp n) (inp n)).1 with
  | .ok (some _) => true
  | _ => false

/-- The clock readings along the tick script occur in real-time order. -/
def ticksOrdered (inp : Nat → TickInput) : Prop :=
  ∀ n, (inp n).c ≤ (inp n).s ∧ (inp n).s ≤ (inp n).s2 ∧ (inp n).s2 ≤ (inp (n + 1)).c

/-!
Python attribute semantics for several rule instances sharing the class:
an instance attribute assignment `self.last_summary_ts = v` writes the
instance's own `__dict__`; reads fall back to the class attribute when
the instance slot is absent.
-/

structure PyWorld where
  cls_last : Int
  inst_last : String → Option Int

def pyGetattr (w : PyWorld) (i : String) : Int := (w.inst_last i).getD w.cls_last

def pySetattr (w : PyWorld) (i : String) (v : Int) : PyWorld :=
  ⟨w.cls_last, fun j => if j = i then some v else w.inst_last j⟩

/-- `SummaryNotification.condition` executed on instance `i` of the shared
class, with explicit attribute semantics. -/
def conditionOn (w : PyWorld) (i : String) (now1 now2 : Int) : Bool × PyWorld :=
  if summary_interval < now1 - pyGetattr w i then (true, pySetattr w i now2) else (false, w)

/-- `SummaryNotification.trigger` executed on instance `i` of the shared
class, with explicit attribute semantics. -/
def triggerOn (w : PyWorld) (i : String) (db : Option QueryResults) (now : Int) :
    Except Unit (Option NotifyCall) × PyWorld :=
  match db with
  | none => (.error (), w)
  | some q =>
    match q.last_plots, q.last_balance, q.last_state, q.last_connections, q.proofs_found with
    | some lp, some lb, some ls, some lc, some pf =>
      (.ok (some ⟨lp, ls, lb, lc, pf⟩), pySetattr w i now)
    | _, _, _, _, _ => (.ok none, w)

/-!
Concrete sample inputs used by witnesses and counterexamples.
-/

/-- A cycle world in which every service responds: one wallet with balance 5,
one harvester peer `h1` holding one plot of 10 bytes, a synced full node. -/
def c1OkWorld : RpcWorld :=
  ⟨⟨.ok [1], fun _ => .ok 5⟩,
   ⟨true, .ok [⟨NodeType_HARVESTER, "h1"⟩]⟩,
   fun _ => .ok true [⟨10⟩],
   ⟨.ok ⟨1000, 3, 42, true⟩, .ok [1, 3, 6]⟩,
   100⟩

/-- Same wallet responses as `c1OkWorld`, but the farmer, harvester and
full-node services all fail. -/
def c1DegradedWorld : RpcWorld :=
  ⟨⟨.ok [1], fun _ => .ok 5⟩,
   ⟨true, .error ()⟩,
   fun _ => .callFail,
   ⟨.error (), .error ()⟩,
   100⟩

/-- A cycle world whose wallet service is down while the other services
respond. -/
def c5FailWorld : RpcWorld :=
  ⟨⟨.error (), fun _ => .error ()⟩,
   ⟨true, .ok [⟨NodeType_HARVESTER, "h1"⟩]⟩,
   fun _ => .ok true [⟨10⟩],
   ⟨.ok ⟨1000, 3, 42, true⟩, .ok [1, 3, 6]⟩,
   100⟩

/-- A fully healthy cycle world, as the cycle after `c5FailWorld`. -/
def c5OkWorld : RpcWorld :=
  ⟨⟨.ok [1], fun _ => .ok 5⟩,
   ⟨true, .ok [⟨NodeType_HARVESTER, "h1"⟩]⟩,
   fun _ => .ok true [⟨10⟩],
   ⟨.ok ⟨1000, 3, 42, true⟩, .ok [1, 3, 6]⟩,
   200⟩

/-- A farmer reporting two harvester peers, `h1` and `h2`. -/
def c3Farmer : FarmerRpc :=
  ⟨true, .ok [⟨NodeType_HARVESTER, "h1"⟩, ⟨NodeType_HARVESTER, "h2"⟩]⟩

/-- Harvester outcomes where `h1` answers with two plots (7 and 5 bytes)
and every other harvester's RPC call fails. -/
def c3Hosts : String → HostOutcome :=
  fun h => if h = "h1" then .ok true [⟨7⟩, ⟨5⟩] else .callFail

/-- A store answer in which every required lookup has data. -/
def c2FullQR : QueryResults :=
  ⟨some ⟨0, 1, 1⟩, some ⟨0, "1", 1, "1", true⟩, some ⟨0, "1"⟩, some ⟨0, 1, 1, 1⟩, some 1⟩

/-- Tick script: every two hours, store always reachable and fully
populated, all three clock readings of a tick coinciding. -/
def c2Inp : Nat → TickInput :=
  fun n => ⟨some c2FullQR, 7200 * (n : Int), 7200 * (n : Int), 7200 * (n : Int)⟩

/-- A wallet RPC environment with two wallets holding 100 and 200. -/
def c8Rpc : WalletRpc := ⟨.ok [1, 2], fun i => .ok (100 * (i : Int))⟩

/-!
Helper lemmas.
-/

theorem argmaxTs_cons_none {β : Type} (key : β → Int) (e : β) (rest : List β)
    (h : argmaxTs key rest = none) : argmaxTs key (e :: rest) = some e := by
  rw [argmaxTs, h]

theorem argmaxTs_cons_some {β : Type} (key : β → Int) (e : β) (rest : List β) (a : β)
    (h : argmaxTs key rest = some a) :
    argmaxTs key (e :: rest) = if key e < key a then some a else some e := by
  rw [argmaxTs, h]

theorem argmaxTs_mem {β : Type} (key : β → Int) (l : List β) (a : β)
    (h : argmaxTs key l = some a) : a ∈ l := by
  induction l with
  | nil => simp [argmaxTs] at h
  | cons e rest ih =>
    cases hr : argmaxTs key rest with
    | none =>
      rw [argmaxTs_cons_none key e rest hr] at h
      simp only [Option.some.injEq] at h
      subst h
      exact List.mem_cons_self _ _
    | some b =>
      rw [argmaxTs_cons_some key e rest b hr] at h
      by_cases hk : key e < key b
      · rw [if_pos hk] at h
        simp only [Option.some.injEq] at h
        subst h
        exact List.mem_cons_of_mem e (ih hr)
      · rw [if_neg hk] at h
        simp only [Option.some.injEq] at h
        subst h
        exact List.mem_cons_self _ _

theorem argmaxTs_unique_max {β : Type} (key : β → Int) (l : List β) (e : β)
    (he : e ∈ l) (hmax : ∀ f ∈ l, f ≠ e → key f < key e) :
    argmaxTs key l = some e := by
  induction l with
  | nil => cases he
  | cons x rest ih =>
    rcases List.mem_cons.mp he with hx | hrest
    · rw [hx] at hmax ⊢
      cases hr : argmaxTs key rest with
      | none => exact argmaxTs_cons_none key x rest hr
      | some b =>
        rw [argmaxTs_cons_some key x rest b hr]
        have hb : b ∈ rest := argmaxTs_mem key rest b hr
        by_cases hbe : b = x
        · rw [hbe, if_neg (lt_irrefl _)]
        · have hlt : key b < key x := hmax b (List.mem_cons_of_mem _ hb) hbe
          rw [if_neg (not_lt.mpr hlt.le)]
    · have hr : argmaxTs key rest = some e :=
        ih hrest (fun f hf hfe => hmax f (List.mem_cons_of_mem _ hf) hfe)
      rw [argmaxTs_cons_some key x rest e hr]
      by_cases hxe : x = e
      · rw [hxe, if_neg (lt_irrefl _)]
      · have hlt : key x < key e := hmax x (List.mem_cons_self _ _) hxe
        rw [if_pos hlt]

/-!
Claim theorems.
-/

/-- C3: evaluation of the harvester plot aggregation at its failing input.
With two configured harvesters of which one fails (M = 1 < N = 2), exactly
one event is published whose count (2) and size (12) are the sums over the
succeeding harvester; but when all harvesters fail (M = N = 2),
`get_all_plots` returns `None` and the collector evaluates
`len(None["plots"])` outside its `try` block, raising an uncaught
`TypeError` instead of quietly publishing nothing. -/
theorem c3_total_failure_raises_typeerror :
    get_harvester_plots c3Farmer c3Hosts 0 = .ok [.harvesterPlots ⟨0, 2, 12⟩] ∧
      get_harvester_plots c3Farmer (fun _ => .callFail) 0 = .error .typeError := by
  decide

/-- C4: whenever any of the five store lookups read by
`SummaryNotification.trigger` yields no data, the `all(...)` guard fails,
so `notify` is not invoked and the instance state is untouched. -/
theorem c4_missing_data_suppression (q : QueryResults) (inst : Option Int) (now : Int)
    (h : q.last_plots = none ∨ q.last_balance = none ∨ q.last_state = none ∨
      q.last_connections = none ∨ q.proofs_found = none) :
    trigger (some q) inst now = (.ok none, inst) := by
  obtain ⟨p, st, b, c, pf⟩ := q
  cases p <;> cases st <;> cases b <;> cases c <;> cases pf <;> simp_all [trigger]

theorem c4_missing_data_suppression_witness :
    trigger (some ⟨none, none, none, none, none⟩) (some 5) 99 = (.ok none, some 5) :=
  c4_missing_data_suppression ⟨none, none, none, none, none⟩ (some 5) 99 (Or.inl rfl)

/-- C7: each latest-event lookup of the rule returns the stored event of
its kind with the greatest `ts`, for every store content (hence for every
arrival order), whenever that maximum is unique. -/
theorem c7_latest_by_event_timestamp (evs : List ChiaEvent) :
    (∀ e, e ∈ evs.filterMap asWallet →
      (∀ f ∈ evs.filterMap asWallet, f ≠ e → f.ts < e.ts) →
      (queryStore evs).last_balance = some e) ∧
    (∀ e, e ∈ evs.filterMap asPlots →
      (∀ f ∈ evs.filterMap asPlots, f ≠ e → f.ts < e.ts) →
      (queryStore evs).last_plots = some e) ∧
    (∀ e, e ∈ evs.filterMap asState →
      (∀ f ∈ evs.filterMap asState, f ≠ e → f.ts < e.ts) →
      (queryStore evs).last_state = some e) ∧
    (∀ e, e ∈ evs.filterMap asConnections →
      (∀ f ∈ evs.filterMap asConnections, f ≠ e → f.ts < e.ts) →
      (queryStore evs).last_connections = some e) :=
  ⟨fun e he hm => argmaxTs_unique_max _ _ e he hm,
   fun e he hm => argmaxTs_unique_max _ _ e he hm,
   fun e he hm => argmaxTs_unique_max _ _ e he hm,
   fun e he hm => argmaxTs_unique_max _ _ e he hm⟩

/-- C7 witness, the claim's scenario: wallet-balance writes with
`confirmed=100` then `confirmed=150`, then a failed wallet cycle (no
write); the latest-balance lookup answers the `confirmed=150` event. -/
theorem c7_latest_by_event_timestamp_witness :
    (queryStore [.walletBalance ⟨1, "100"⟩, .walletBalance ⟨2, "150"⟩]).last_balance =
      some ⟨2, "150"⟩ :=
  (c7_latest_by_event_timestamp
    [.walletBalance ⟨1, "100"⟩, .walletBalance ⟨2, "150"⟩]).1
    ⟨2, "150"⟩ (by decide) (by decide)

/-- C8: a successful wallet poll publishes exactly one
`WalletBalanceEvent`, whose `confirmed` field carries exactly the sum of
the `confirmed_wallet_balance` of all returned wallets (rendered through
`str(...)` as at the construction site), and that sum is non-negative
when every wallet's balance is. -/
theorem c8_wallet_balance_sum (w : WalletRpc) (now : Int) (ids : List Nat)
    (balances : List Int) (hw : w.wallets = .ok ids)
    (hb : ids.mapM w.balanceOf = .ok balances) (hpos : ∀ b ∈ balances, 0 ≤ b) :
    get_wallet_balance w now = .ok [.walletBalance ⟨now, toString balances.sum⟩] ∧
      0 ≤ balances.sum := by
  constructor
  · have h1 : get_wallet_balance w now =
        match ids.mapM w.balanceOf with
        | Except.error _ => Except.error (PyError.connectionError "wallet")
        | Except.ok bs => Except.ok [ChiaEvent.walletBalance ⟨now, toString bs.sum⟩] := by
      rw [get_wallet_balance, hw]
      rfl
    rw [h1, hb]
  · exact List.sum_nonneg hpos

theorem c8_wallet_balance_sum_witness :
    get_wallet_balance c8Rpc 7 =
      .ok [.walletBalance ⟨7, toString (([100, 200] : List Int).sum)⟩] ∧
      0 ≤ (([100, 200] : List Int).sum) :=
  c8_wallet_balance_sum c8Rpc 7 [1, 2] [100, 200] rfl (by decide) (by decide)

/-- C9 counterexample: with the class attribute initialized at instant 0
(`last_summary_ts = datetime.now() - summary_interval`), a first tick at
the same instant 0 — a non-decreasing clock — makes
`now - last_summary_ts` equal to the interval exactly, and the strict `>`
comparison returns false: the first call to `condition()` does not always
return true. -/
theorem c9_counterexample : (condition (initClass 0) none 0 0).1 = false := by
  decide

/-- C9 amended: a freshly constructed instance reads the class-level
initial timestamp, set one full interval before class-initialization time
`t0`; its first `condition()` call returns true whenever the clock has
strictly advanced past `t0`. -/
theorem c9_first_tick_fires (t0 now1 now2 : Int) (h : t0 < now1) :
    (condition (initClass t0) none now1 now2).1 = true := by
  have hlt : summary_interval < now1 - readLast (initClass t0) none := by
    simp only [readLast, initClass, Option.getD_none, summary_interval]
    omega
  simp [condition, hlt]

theorem c9_first_tick_fires_witness :
    (condition (initClass 0) none 1 1).1 = true :=
  c9_first_tick_fires 0 1 1 (by decide)

/-- C1: per-metric isolation within one `task` cycle. Each metric's fetch
outcome depends only on its own service's responses (and the clock), so
changing — in particular failing — any of the other services neither
alters the events that metric publishes nor removes them from the cycle's
published events. -/
theorem c1_metric_isolation (r r' : RpcWorld) :
    (r'.wallet = r.wallet → r'.now = r.now →
      eventsOf (walletFetch r') = eventsOf (walletFetch r) ∧
        ∀ e ∈ eventsOf (walletFetch r), e ∈ published r') ∧
    (r'.farmer = r.farmer → r'.harvesterHosts = r.harvesterHosts → r'.now = r.now →
      eventsOf (plotsFetch r') = eventsOf (plotsFetch r) ∧
        ∀ e ∈ eventsOf (plotsFetch r), e ∈ published r') ∧
    (r'.fullNode = r.fullNode → r'.now = r.now →
      eventsOf (stateFetch r') = eventsOf (stateFetch r) ∧
        ∀ e ∈ eventsOf (stateFetch r), e ∈ published r') ∧
    (r'.fullNode = r.fullNode → r'.now = r.now →
      eventsOf (connFetch r') = eventsOf (connFetch r) ∧
        ∀ e ∈ eventsOf (connFetch r), e ∈ published r') := by
  refine ⟨fun h1 h2 => ?_, fun h1 h2 h3 => ?_, fun h1 h2 => ?_, fun h1 h2 => ?_⟩
  · have hfe : walletFetch r' = walletFetch r := by rw [walletFetch, h1, h2, walletFetch]
    refine ⟨by rw [hfe], fun e he => ?_⟩
    rw [published, hfe]
    exact List.mem_append_left _ (List.mem_append_left _ (List.mem_append_left _ he))
  · have hfe : plotsFetch r' = plotsFetch r := by rw [plotsFetch, h1, h2, h3, plotsFetch]
    refine ⟨by rw [hfe], fun e he => ?_⟩
    rw [published, hfe]
    exact List.mem_append_left _ (List.mem_append_left _ (List.mem_append_right _ he))
  · have hfe : stateFetch r' = stateFetch r := by rw [stateFetch, h1, h2, stateFetch]
    refine ⟨by rw [hfe], fun e he => ?_⟩
    rw [published, hfe]
    exact List.mem_append_left _ (List.mem_append_right _ he)
  · have hfe : connFetch r' = connFetch r := by rw [connFetch, h1, h2, connFetch]
    refine ⟨by rw [hfe], fun e he => ?_⟩
    rw [published, hfe]
    exact List.mem_append_right _ he

/-- C1 witness: the wallet balance event is still published in a cycle in
which the farmer, harvester and full-node fetches all fail. -/
theorem c1_metric_isolation_witness :
    ChiaEvent.walletBalance ⟨100, "5"⟩ ∈ published c1DegradedWorld :=
  ((c1_metric_isolation c1OkWorld c1DegradedWorld).1 rfl rfl).2
    (ChiaEvent.walletBalance ⟨100, "5"⟩) (by decide)

/-- C5 counterexample: a cycle whose wallet fetch fails makes the gather
re-raise the `ConnectionError`; `task`'s `while True` loop has no handler,
so the loop terminates with that error instead of proceeding — the next
cycle's events (here the healthy `c5OkWorld` wallet event) are never
published. -/
theorem c5_counterexample :
    cycleError c5FailWorld = some (.connectionError "wallet") ∧
      runLoop [c5FailWorld, c5OkWorld] =
        (published c5FailWorld, some (.connectionError "wallet")) ∧
      ChiaEvent.walletBalance ⟨200, "5"⟩ ∉ (runLoop [c5FailWorld, c5OkWorld]).1 := by
  refine ⟨rfl, rfl, by decide⟩

/-- C5 amended: a connection failure in any metric fetch terminates the
collector's run loop within that cycle — the loop publishes the cycle's
surviving events, re-raises the first fetch error, and never reaches the
following cycles. -/
theorem c5_failing_cycle_terminates_loop (r : RpcWorld) (rest : List RpcWorld)
    (e : PyError) (h : cycleError r = some e) :
    runLoop (r :: rest) = (published r, some e) := by
  rw [runLoop, h]

theorem c5_failing_cycle_terminates_loop_witness :
    runLoop [c5FailWorld, c5OkWorld] =
      (published c5FailWorld, some (.connectionError "wallet")) :=
  c5_failing_cycle_terminates_loop c5FailWorld [c5OkWorld]
    (.connectionError "wallet") rfl

/-- C6 counterexample: a tick at time 4000 on a rule whose last stamp is 0
fires `condition()` (which stamps 4000), then the store lookup in
`trigger()` fails; after the tick the rule's timestamp reads 4000, not
the 0 it held before the tick began — the claim that the timestamp is
unchanged by a store-failing tick is false. -/
theorem c6_counterexample :
    (tick ⟨0⟩ none ⟨none, 4000, 4000, 4000⟩).1 = Except.error () ∧
      readLast ⟨0⟩ (tick ⟨0⟩ none ⟨none, 4000, 4000, 4000⟩).2 ≠ readLast ⟨0⟩ none := by
  decide

/-- C6 amended: on a tick whose store lookup fails, no notification is
sent and the lookup error escapes `trigger()`; the rule survives with its
timestamp exactly as `condition()` left it at the start of the tick —
unchanged when `condition()` returned false, but advanced to the tick's
stamp when it fired. -/
theorem c6_store_failure_keeps_condition_stamp (cls : SummaryClassAttrs)
    (inst : Option Int) (c s s2 : Int) :
    (tick cls inst ⟨none, c, s, s2⟩).1 =
        (if (condition cls inst c s).1 then Except.error () else Except.ok none) ∧
      (tick cls inst ⟨none, c, s, s2⟩).2 = (condition cls inst c s).2 := by
  rw [tick]
  cases h : condition cls inst c s with
  | mk fired i1 => cases fired <;> simp [trigger]

/-- C10: Python attribute semantics make the cooldown per-instance in
effect: the assignment `self.last_summary_ts = ...` in `condition` or
`trigger` on instance `a` writes `a`'s own instance dictionary, so the
timestamp observed by any other instance `b` (its own slot, else the
untouched class attribute) is unchanged. -/
theorem c10_instance_isolation (w : PyWorld) (a b : String) (hab : a ≠ b)
    (now1 now2 : Int) (db : Option QueryResults) (now3 : Int) :
    pyGetattr (conditionOn w a now1 now2).2 b = pyGetattr w b ∧
      pyGetattr (triggerOn w a db now3).2 b = pyGetattr w b := by
  have hset : ∀ v, pyGetattr (pySetattr w a v) b = pyGetattr w b := by
    intro v
    simp [pyGetattr, pySetattr, Ne.symm hab]
  constructor
  · by_cases hc : summary_interval < now1 - pyGetattr w a
    · simp [conditionOn, hc, hset]
    · simp [conditionOn, hc]
  · cases db with
    | none => rfl
    | some q =>
      rw [triggerOn]
      split
      · exact hset now3
      · rfl

theorem condition_eq (cls : SummaryClassAttrs) (inst : Option Int) (c s : Int) :
    (summary_interval < c - readLast cls inst ∧ condition cls inst c s = (true, some s)) ∨
      (¬summary_interval < c - readLast cls inst ∧ condition cls inst c s = (false, inst)) := by
  by_cases h : summary_interval < c - readLast cls inst
  · exact Or.inl ⟨h, by simp [condition, h]⟩
  · exact Or.inr ⟨h, by simp [condition, h]⟩

theorem trigger_state (db : Option QueryResults) (i1 : Option Int) (now : Int) :
    (trigger db i1 now).2 = i1 ∨ (trigger db i1 now).2 = some now := by
  rw [trigger.eq_def]
  cases db with
  | none => exact Or.inl rfl
  | some q =>
    obtain ⟨p, st, b, c, pf⟩ := q
    cases p <;> cases st <;> cases b <;> cases c <;> cases pf <;>
      first
        | exact Or.inl rfl
        | exact Or.inr rfl

theorem tick_snd_not_fired (cls : SummaryClassAttrs) (inst : Option Int) (inp : TickInput)
    (hc : condition cls inst inp.c inp.s = (false, inst)) :
    (tick cls inst inp).2 = inst := by
  rw [tick, hc]

theorem tick_snd_fired (cls : SummaryClassAttrs) (inst : Option Int) (inp : TickInput)
    (hc : condition cls inst inp.c inp.s = (true, some inp.s)) :
    (tick cls inst inp).2 = some inp.s ∨ (tick cls inst inp).2 = some inp.s2 := by
  rw [tick, hc]
  exact trigger_state inp.db (some inp.s) inp.s2

theorem trigger_notified (db : Option QueryResults) (i1 : Option Int) (now : Int)
    (call : NotifyCall) (h : (trigger db i1 now).1 = .ok (some call)) :
    (trigger db i1 now).2 = some now := by
  rw [trigger.eq_def] at h ⊢
  cases db with
  | none => simp at h
  | some q =>
    obtain ⟨p, st, b, c, pf⟩ := q
    cases p <;> cases st <;> cases b <;> cases c <;> cases pf <;> simp_all

theorem tick_notified (cls : SummaryClassAttrs) (inst : Option Int) (inp : TickInput)
    (call : NotifyCall) (h : (tick cls inst inp).1 = .ok (some call)) :
    (condition cls inst inp.c inp.s).1 = true ∧ (tick cls inst inp).2 = some inp.s2 := by
  rcases condition_eq cls inst inp.c inp.s with ⟨_, hc⟩ | ⟨_, hc⟩
  · have heq : tick cls inst inp = trigger inp.db (some inp.s) inp.s2 := by
      rw [tick, hc]
    rw [heq] at h ⊢
    exact ⟨by rw [hc], trigger_notified inp.db (some inp.s) inp.s2 call h⟩
  · have heq : tick cls inst inp = (.ok none, inst) := by
      rw [tick, hc]
    rw [heq] at h
    simp at h

theorem notifiedAt_spec (cls : SummaryClassAttrs) (inst0 : Option Int)
    (inp : Nat → TickInput) (n : Nat) (h : notifiedAt cls inst0 inp n = true) :
    ∃ call, (tick cls (instAfter cls inst0 inp n) (inp n)).1 = .ok (some call) := by
  rw [notifiedAt] at h
  cases htick : (tick cls (instAfter cls inst0 inp n) (inp n)).1 with
  | error e => rw [htick] at h; cases h
  | ok o =>
    cases o with
    | none => rw [htick] at h; cases h
    | some call => exact ⟨call, rfl⟩

theorem c_le (inp : Nat → TickInput) (hord : ticksOrdered inp) :
    ∀ {i j : Nat}, i ≤ j → (inp i).c ≤ (inp j).c := by
  intro i j hij
  induction hij with
  | refl => exact le_rfl
  | @step m h ih =>
    obtain ⟨h1, h2, h3⟩ := hord m
    simp only [Nat.succ_eq_add_one]
    omega

theorem floor_from (cls : SummaryClassAttrs) (inst0 : Option Int) (inp : Nat → TickInput)
    (hord : ticksOrdered inp) (i : Nat) (b : Int)
    (hb1 : b ≤ readLast cls (instAfter cls inst0 inp (i + 1)))
    (hb2 : b ≤ (inp (i + 1)).c) :
    ∀ j, i + 1 ≤ j → b ≤ readLast cls (instAfter cls inst0 inp j) := by
  intro j hj
  induction j, hj using Nat.le_induction with
  | base => exact hb1
  | succ m hm ih =>
    have hstep : instAfter cls inst0 inp (m + 1) =
        (tick cls (instAfter cls inst0 inp m) (inp m)).2 := rfl
    rcases condition_eq cls (instAfter cls inst0 inp m) (inp m).c (inp m).s with
      ⟨_, hc⟩ | ⟨_, hc⟩
    · rcases tick_snd_fired cls (instAfter cls inst0 inp m) (inp m) hc with hs | hs
      · rw [hstep, hs]
        have hcm : (inp (i + 1)).c ≤ (inp m).c := c_le inp hord hm
        have := (hord m).1
        simp only [readLast, Option.getD_some]
        omega
      · rw [hstep, hs]
        have hcm : (inp (i + 1)).c ≤ (inp m).c := c_le inp hord hm
        obtain ⟨h1, h2, _⟩ := hord m
        simp only [readLast, Option.getD_some]
        omega
    · rw [hstep, tick_snd_not_fired cls (instAfter cls inst0 inp m) (inp m) hc]
      exact ih

/-- C2: notification debounce for the cooldown `summary_interval`.
`condition()` fires only when the time since the last stamp strictly
exceeds the interval and stamps the moment it commits, so along any tick
script whose clock readings are ordered in real time, two actual
`notify()` invocations at ticks `i < j` are always more than one interval
apart — at most one `notify()` per cooldown-length window. -/
theorem c2_notify_debounce (cls : SummaryClassAttrs) (inst0 : Option Int)
    (inp : Nat → TickInput) (hord : ticksOrdered inp) (i j : Nat) (hij : i < j)
    (hi : notifiedAt cls inst0 inp i = true) (hj : notifiedAt cls inst0 inp j = true) :
    summary_interval < (inp j).c - (inp i).s2 ∧
      summary_interval < (inp j).c - (inp i).c := by
  obtain ⟨ci, hci⟩ := notifiedAt_spec cls inst0 inp i hi
  have hTi := tick_notified cls (instAfter cls inst0 inp i) (inp i) ci hci
  have hLsucc : instAfter cls inst0 inp (i + 1) = some (inp i).s2 := hTi.2
  have hfloor : (inp i).s2 ≤ readLast cls (instAfter cls inst0 inp j) := by
    refine floor_from cls inst0 inp hord i ((inp i).s2) ?_ ((hord i).2.2) j hij
    rw [hLsucc]
    simp [readLast]
  obtain ⟨cj, hcj⟩ := notifiedAt_spec cls inst0 inp j hj
  have hfj := (tick_notified cls (instAfter cls inst0 inp j) (inp j) cj hcj).1
  have hgap : summary_interval <
      (inp j).c - readLast cls (instAfter cls inst0 inp j) := by
    rcases condition_eq cls (instAfter cls inst0 inp j) (inp j).c (inp j).s with
      ⟨hlt, _⟩ | ⟨_, hc⟩
    · exact hlt
    · rw [hc] at hfj
      cases hfj
  obtain ⟨h1, h2, _⟩ := hord i
  constructor <;> omega

theorem c2_notify_debounce_witness :
    summary_interval < (c2Inp 1).c - (c2Inp 0).s2 ∧
      summary_interval < (c2Inp 1).c - (c2Inp 0).c :=
  c2_notify_debounce ⟨-3601⟩ none c2Inp
    (by
      intro n
      refine ⟨le_rfl, le_rfl, ?_⟩
      simp only [c2Inp]
      push_cast
      omega)
    0 1 (by decide) (by decide) (by decide)

theorem c10_instance_isolation_witness :
    pyGetattr (conditionOn ⟨0, fun _ => none⟩ "x" 99999 99999).2 "y" =
        pyGetattr ⟨0, fun _ => none⟩ "y" ∧
      pyGetattr (triggerOn ⟨0, fun _ => none⟩ "x" (some c2FullQR) 5).2 "y" =
        pyGetattr ⟨0, fun _ => none⟩ "y" :=
  c10_instance_isolation ⟨0, fun _ => none⟩ "x" "y" (by decide) 99999 99999
    (some c2FullQR) 5

end ChiaMonitor
